import Mathlib

/-!
A verification development for the bulk-import core of garmin-grafana
(`src/garmin_grafana/garmin_bulk_importer.py`).

The Python source is shallowly embedded: pure functions become Lean
functions, dict-bearing methods become functions over explicit maps, and
code paths that raise exceptions return `Except String`.  Python `dict`s
keyed by strings are modelled as association lists with
last-insert-wins lookup (`dinsert` prepends, `dlookup` finds the first
binding); only lookup, membership and insertion are used by the source on
these dicts, so iteration order does not need to be modelled.  `datetime`
values are modelled by the `DateTime` structure of wall-clock fields; the
source only builds UTC-aware datetimes, so a time zone field is carried
separately (`PyDateTime`) exactly where the source can see an offset
(`datetime.fromisoformat`).  Machine floats never matter here: every time
difference the source computes is a whole number of seconds because all
datetimes involved have second precision, so deltas are modelled as `Nat`
seconds.  JSON record objects are modelled as structures whose `Option`
fields distinguish an absent key (`none`) from a present one; remaining
JSON fields that the importer never inspects are abstracted into a
`payload : Nat` component so that two records with equal dates can still
be told apart.
-/

/-! ## Characters, digits, and Python `str.strip` -/

/-- Numeric value of an ASCII digit character, `none` on a non-digit. -/
def digitVal (c : Char) : Option Nat :=
  if 48 ≤ c.toNat && c.toNat ≤ 57 then some (c.toNat - 48) else none

/-- The ASCII digit character for `n % 10`. -/
def digitChar (n : Nat) : Char := Char.ofNat (48 + n % 10)

/-- Two-digit zero-padded decimal rendering (`%02d` for `n < 100`). -/
def pad2 (n : Nat) : List Char := [digitChar (n / 10), digitChar n]

/-- Four-digit zero-padded decimal rendering (`%04d` for `n < 10000`). -/
def pad4 (n : Nat) : List Char :=
  [digitChar (n / 1000), digitChar (n / 100), digitChar (n / 10), digitChar n]

/-- The whitespace characters removed by Python `str.strip()` (ASCII part). -/
def isSpaceChar (c : Char) : Bool := c = ' ' || c = '\t' || c = '\n' || c = '\r'

/-- Python `str.strip()`: drop leading and trailing whitespace. -/
def pyStrip (s : String) : String :=
  String.mk (((s.data.dropWhile isSpaceChar).reverse.dropWhile isSpaceChar).reverse)

/-! ## Datetimes

`DateTime` is a wall-clock value (what Python prints and compares field by
field); `PyDateTime` additionally records the UTC offset, in minutes, that
`datetime.fromisoformat` attaches when the parsed string carries one
(`none` models a naive datetime). -/

structure DateTime where
  year : Nat
  month : Nat
  day : Nat
  hour : Nat
  minute : Nat
  second : Nat
deriving DecidableEq

structure PyDateTime where
  wall : DateTime
  tzOffsetMinutes : Option Int
deriving DecidableEq

/-- Days since 1970-01-01 of a civil date (the standard days-from-civil
algorithm, as used by `datetime.timestamp` for UTC-aware values).  All
inputs reaching it are positive, so the rounding mode of `Int` division
never matters. -/
def daysFromCivil (y m d : Int) : Int :=
  let yy := if m ≤ 2 then y - 1 else y
  let era := (if 0 ≤ yy then yy else yy - 399) / 400
  let yoe := yy - era * 400
  let mp := (m + 9) % 12
  let doy := (153 * mp + 2) / 5 + d - 1
  let doe := yoe * 365 + yoe / 4 - yoe / 100 + doy
  era * 146097 + doe - 719468

/-- Seconds since the epoch of a UTC wall-clock datetime
(`datetime.timestamp()` on a UTC-aware value). -/
def DateTime.toEpochSeconds (t : DateTime) : Int :=
  daysFromCivil (Int.ofNat t.year) (Int.ofNat t.month) (Int.ofNat t.day) * 86400
    + Int.ofNat t.hour * 3600 + Int.ofNat t.minute * 60 + Int.ofNat t.second

/-- Python `datetime <= datetime`: field-lexicographic comparison. -/
def DateTime.leB (a b : DateTime) : Bool :=
  if a.year ≠ b.year then decide (a.year < b.year)
  else if a.month ≠ b.month then decide (a.month < b.month)
  else if a.day ≠ b.day then decide (a.day < b.day)
  else if a.hour ≠ b.hour then decide (a.hour < b.hour)
  else if a.minute ≠ b.minute then decide (a.minute < b.minute)
  else decide (a.second ≤ b.second)

/-- The absolute value, in whole seconds, of a difference of two
UTC-aware datetimes: `abs((a - b).total_seconds())`.  Both operands have
second precision throughout the source, so the value is a natural
number of seconds. -/
def deltaSeconds (a b : DateTime) : Nat :=
  (a.toEpochSeconds - b.toEpochSeconds).natAbs

/-! ## Fixed-format date parsing and printing

These model `datetime.strptime` with the two format strings the source
uses, `datetime.fromisoformat`, and `datetime.isoformat` on the
zero-padded well-formed strings that actually flow through the importer. -/

/-- Consume two digit characters. -/
def parse2 : List Char → Option (Nat × List Char)
  | c1 :: c2 :: rest =>
    match digitVal c1, digitVal c2 with
    | some d1, some d2 => some (d1 * 10 + d2, rest)
    | _, _ => none
  | _ => none

/-- Consume four digit characters. -/
def parse4 : List Char → Option (Nat × List Char)
  | c1 :: c2 :: c3 :: c4 :: rest =>
    match digitVal c1, digitVal c2, digitVal c3, digitVal c4 with
    | some d1, some d2, some d3, some d4 =>
      some (d1 * 1000 + d2 * 100 + d3 * 10 + d4, rest)
    | _, _, _, _ => none
  | _ => none

/-- Consume one expected character. -/
def expectChar (c : Char) : List Char → Option (List Char)
  | x :: rest => if x = c then some rest else none
  | [] => none

/-- Consume `YYYY-MM-DD`, with the range validation `datetime` performs
(year at least 1, month 1..12, day 1..31). -/
def parseDatePart (cs : List Char) : Option (Nat × Nat × Nat × List Char) :=
  match parse4 cs with
  | none => none
  | some (y, r1) =>
    match expectChar '-' r1 with
    | none => none
    | some r2 =>
      match parse2 r2 with
      | none => none
      | some (mo, r3) =>
        match expectChar '-' r3 with
        | none => none
        | some r4 =>
          match parse2 r4 with
          | none => none
          | some (dy, r5) =>
            if 1 ≤ y && 1 ≤ mo && mo ≤ 12 && 1 ≤ dy && dy ≤ 31 then
              some (y, mo, dy, r5)
            else none

/-- Consume `HH:MM:SS` with range validation. -/
def parseTimePart (cs : List Char) : Option (Nat × Nat × Nat × List Char) :=
  match parse2 cs with
  | none => none
  | some (h, r1) =>
    match expectChar ':' r1 with
    | none => none
    | some r2 =>
      match parse2 r2 with
      | none => none
      | some (mi, r3) =>
        match expectChar ':' r3 with
        | none => none
        | some r4 =>
          match parse2 r4 with
          | none => none
          | some (s, r5) =>
            if h ≤ 23 && mi ≤ 59 && s ≤ 59 then some (h, mi, s, r5) else none

/-- Consume a trailing UTC offset: nothing (naive), `Z`, or `+HH:MM` /
`-HH:MM`; the result is the offset in minutes. -/
def parseTzPart : List Char → Option (Option Int)
  | [] => some none
  | ['Z'] => some (some 0)
  | '+' :: rest =>
    match parseTimePartOffset rest with
    | some off => some (some off)
    | none => none
  | '-' :: rest =>
    match parseTimePartOffset rest with
    | some off => some (some (-off))
    | none => none
  | _ => none
where
  parseTimePartOffset (cs : List Char) : Option Int :=
    match parse2 cs with
    | none => none
    | some (oh, r1) =>
      match expectChar ':' r1 with
      | none => none
      | some r2 =>
        match parse2 r2 with
        | some (om, []) => some (Int.ofNat (oh * 60 + om))
        | _ => none

/-- `datetime.fromisoformat` on the strings the importer can meet:
`YYYY-MM-DD`, optionally followed by a `T` or space separator, a
`HH:MM:SS` time, and an optional UTC offset. -/
def fromisoformat (s : String) : Option PyDateTime :=
  match parseDatePart s.data with
  | none => none
  | some (y, mo, dy, rest) =>
    match rest with
    | [] => some ⟨⟨y, mo, dy, 0, 0, 0⟩, none⟩
    | c :: rest2 =>
      if c = 'T' || c = ' ' then
        match parseTimePart rest2 with
        | none => none
        | some (h, mi, s2, rest3) =>
          match parseTzPart rest3 with
          | none => none
          | some off => some (⟨⟨y, mo, dy, h, mi, s2⟩, off⟩)
      else none

/-- `datetime.strptime(s, "%Y-%m-%d")`: the whole string must match. -/
def strptimeYmd (s : String) : Option DateTime :=
  match parseDatePart s.data with
  | some (y, mo, dy, []) => some ⟨y, mo, dy, 0, 0, 0⟩
  | _ => none

/-- `datetime.strptime(s, "%Y-%m-%d %H:%M:%S")`: the whole string must
match. -/
def strptimeYmdHms (s : String) : Option DateTime :=
  match parseDatePart s.data with
  | some (y, mo, dy, ' ' :: rest) =>
    match parseTimePart rest with
    | some (h, mi, s2, []) => some ⟨y, mo, dy, h, mi, s2⟩
    | _ => none
  | _ => none

/-- `datetime.isoformat()` of a UTC-aware, second-precision datetime:
`YYYY-MM-DDTHH:MM:SS+00:00`. -/
def isoformatChars (t : DateTime) : List Char :=
  pad4 t.year ++ '-' :: (pad2 t.month ++ '-' :: (pad2 t.day ++ 'T' ::
    (pad2 t.hour ++ ':' :: (pad2 t.minute ++ ':' ::
      (pad2 t.second ++ ['+', '0', '0', ':', '0', '0'])))))

/-- `iso_to_timestamp_ms` (source lines 45-48): parse the ISO string,
overwrite its tzinfo with UTC via `dt.replace(tzinfo=timezone.utc)` —
which keeps the wall-clock fields and discards any parsed offset — and
return the epoch milliseconds.  `none` models the ValueError a malformed
string raises. -/
def iso_to_timestamp_ms (iso_str : String) : Option Int :=
  match fromisoformat iso_str with
  | none => none
  | some dt => some (dt.wall.toEpochSeconds * 1000)

/-! ## Python dicts keyed by strings -/

/-- A string-keyed Python dict, modelled as an association list in which
the most recent insertion is found first. -/
abbrev Dict (α : Type) := List (String × α)

/-- `d[k]` lookup / `d.get(k)`. -/
def dlookup {α : Type} (d : Dict α) (k : String) : Option α :=
  match d.find? (fun p => p.1 == k) with
  | some p => some p.2
  | none => none

/-- `k in d` membership. -/
def dcontains {α : Type} (d : Dict α) (k : String) : Bool :=
  (dlookup d k).isSome

/-- `d[k] = v` assignment (last write wins under `dlookup`). -/
def dinsert {α : Type} (d : Dict α) (k : String) (v : α) : Dict α :=
  (k, v) :: d

/-! ## Sleep records (`load_sleep_stats`, lines 203-233)

A raw sleep JSON object; `none` in an `Option` field models the key being
absent from the dict.  The importer never inspects other keys, which are
abstracted by `payload`. -/

structure RawSleepObj where
  calendarDate : Option String
  sleepEndTimestampGMT : Option String
  deepSleepSeconds : Option Nat
  lightSleepSeconds : Option Nat
  awakeSleepSeconds : Option Nat
  unmeasurableSeconds : Option Nat
  payload : Nat
deriving DecidableEq

/-- A stored sleep record after the in-place coercion of
`sleepEndTimestampGMT` to epoch milliseconds. -/
structure SleepRecord where
  calendarDate : String
  sleepEndTimestampGMT : Int
  deepSleepSeconds : Option Nat
  lightSleepSeconds : Option Nat
  awakeSleepSeconds : Option Nat
  unmeasurableSeconds : Option Nat
  payload : Nat
deriving DecidableEq

/-- The body of the `for stats in data` loop of `load_sleep_stats`: skip
when `"calendarDate" not in stats`; fail on a duplicate of the raw date;
coerce the end timestamp (KeyError when absent, ValueError when
unparseable); store under the stripped date. -/
def loadSleepStep (acc : Dict SleepRecord) (stats : RawSleepObj) :
    Except String (Dict SleepRecord) :=
  match stats.calendarDate with
  | none => .ok acc
  | some stats_date =>
    if dcontains acc stats_date then
      .error ("Duplicate entries found for sleep stats dated on " ++ stats_date)
    else
      match stats.sleepEndTimestampGMT with
      | none => .error "KeyError: sleepEndTimestampGMT"
      | some endStr =>
        match iso_to_timestamp_ms endStr with
        | none => .error "ValueError: invalid isoformat string"
        | some ms =>
          .ok (dinsert acc (pyStrip stats_date)
            { calendarDate := stats_date
              sleepEndTimestampGMT := ms
              deepSleepSeconds := stats.deepSleepSeconds
              lightSleepSeconds := stats.lightSleepSeconds
              awakeSleepSeconds := stats.awakeSleepSeconds
              unmeasurableSeconds := stats.unmeasurableSeconds
              payload := stats.payload })

/-- Run `load_sleep_stats` over the concatenated objects of all sleep
files (the per-file loops share one `sleep_stats` dict, so concatenation
in discovery order is the processing order). -/
def runSleepStats (acc : Dict SleepRecord) :
    List RawSleepObj → Except String (Dict SleepRecord)
  | [] => .ok acc
  | o :: rest =>
    match loadSleepStep acc o with
    | .error e => .error e
    | .ok acc2 => runSleepStats acc2 rest

def load_sleep_stats (objs : List RawSleepObj) : Except String (Dict SleepRecord) :=
  runSleepStats [] objs

/-- `get_sleep_data` (lines 381-386): the record wrapped as
`{"dailySleepDTO": stats}`, or the sentinel
`{"dailySleepDTO": {"sleepEndTimestampGMT": None}}` when absent.  Only
the record (or its absence) is observable through the wrapper. -/
def get_sleep_data (sleep_stats : Dict SleepRecord) (date_str : String) :
    Option SleepRecord :=
  dlookup sleep_stats date_str

/-- `calculate_sleeping_seconds` (lines 235-250).  In the source the
`dailySleepDTO` value is a nonempty dict in both branches (the sentinel
holds one key), so the `if sleep_stats:` test is always true; the four
`.get(..., 0)` sums are 0 exactly on the sentinel, whose dict lacks all
four keys.  Hence: sum the four duration fields of the record when
present (missing keys default to 0), else 0; return the total when
positive, `None` otherwise. -/
def calculate_sleeping_seconds (sleep_stats : Dict SleepRecord)
    (date_str : String) : Option Nat :=
  let total :=
    match get_sleep_data sleep_stats date_str with
    | some r =>
      r.deepSleepSeconds.getD 0 + r.lightSleepSeconds.getD 0 +
        r.awakeSleepSeconds.getD 0 + r.unmeasurableSeconds.getD 0
    | none => 0
  if total > 0 then some total else none

/-! ## Aggregate daily stats and hydration (`load_agg_stats`, lines 252-290) -/

/-- A hydration sub-object (`stats["hydration"]`). -/
structure HydrationObj where
  calendarDate : Option String
  payload : Nat
deriving DecidableEq

/-- A raw aggregate-file JSON object: `hydration = some h` models the
`"hydration"` key being present (the marker the source branches on). -/
structure AggObj where
  hydration : Option HydrationObj
  calendarDate : Option String
  includesWellnessData : Option Bool
  payload : Nat
deriving DecidableEq

/-- A stored daily-stats record: the raw object plus the
`sleepingSeconds` value injected at merge time. -/
structure AggRecord where
  obj : AggObj
  sleepingSeconds : Option Nat
deriving DecidableEq

/-- The body of the `for stats in data` loop of `load_agg_stats`.
Hydration entries are stored unconditionally under the stripped date
(`stats["calendarDate"]` raises KeyError when absent).  Daily-stats
entries fail when the raw date is already a key of `agg_stats`, have
`sleepingSeconds` computed from the raw (unstripped) date, and are
stored under the stripped date. -/
def loadAggStep (sleep_stats : Dict SleepRecord)
    (st : Dict AggRecord × Dict HydrationObj) (stats : AggObj) :
    Except String (Dict AggRecord × Dict HydrationObj) :=
  match stats.hydration with
  | some h =>
    match h.calendarDate with
    | none => .error "KeyError: calendarDate"
    | some stats_date => .ok (st.1, dinsert st.2 (pyStrip stats_date) h)
  | none =>
    match stats.calendarDate with
    | none => .error "KeyError: calendarDate"
    | some stats_date =>
      if dcontains st.1 stats_date then
        .error ("Duplicate entries found for aggregated stats dated on " ++ stats_date)
      else
        .ok (dinsert st.1 (pyStrip stats_date)
          { obj := stats
            sleepingSeconds := calculate_sleeping_seconds sleep_stats stats_date },
          st.2)

/-- Run `load_agg_stats` over the concatenated objects of all aggregate
files. -/
def runAggStats (sleep_stats : Dict SleepRecord)
    (st : Dict AggRecord × Dict HydrationObj) :
    List AggObj → Except String (Dict AggRecord × Dict HydrationObj)
  | [] => .ok st
  | o :: rest =>
    match loadAggStep sleep_stats st o with
    | .error e => .error e
    | .ok st2 => runAggStats sleep_stats st2 rest

def load_agg_stats (sleep_stats : Dict SleepRecord) (objs : List AggObj) :
    Except String (Dict AggRecord × Dict HydrationObj) :=
  runAggStats sleep_stats ([], []) objs

/-- The result of `get_stats`: either a stored record or the sentinel
dict `{"wellnessStartTimeGmt": None}`. -/
inductive StatsResult where
  | record (r : AggRecord)
  | sentinel
deriving DecidableEq

/-- `get_stats` (lines 372-379): the sentinel when the date is absent or
the record has `includesWellnessData` present and false (`.get` defaults
to `True`). -/
def get_stats (agg_stats : Dict AggRecord) (date_str : String) : StatsResult :=
  match dlookup agg_stats date_str with
  | none => .sentinel
  | some stats =>
    if stats.obj.includesWellnessData.getD true then .record stats else .sentinel

/-! ## Activity records and range queries -/

/-- A normalized activity summary as held in `self.activities`:
`activityId` is `a.get("activityId")` (`none` when the key is absent) and
`startTimeGMT` is the `YYYY-MM-DD HH:MM:SS` string written by
`load_activities`; the remaining fields are abstracted by `payload`. -/
structure ActivityRecord where
  activityId : Option Int
  startTimeGMT : String
  payload : Nat
deriving DecidableEq

/-- The `for act in self.activities` loop of `get_activities_by_date`:
re-parse each activity's start string (ValueError aborts the query) and
keep the activities inside the inclusive range. -/
def filterActivitiesInRange (start_dt end_dt : DateTime) :
    List ActivityRecord → Except String (List ActivityRecord)
  | [] => .ok []
  | act :: rest =>
    match strptimeYmdHms act.startTimeGMT with
    | none => .error "ValueError: time data does not match format"
    | some act_dt =>
      match filterActivitiesInRange start_dt end_dt rest with
      | .error e => .error e
      | .ok r => .ok (if start_dt.leB act_dt && act_dt.leB end_dt then act :: r else r)

/-- `get_activities_by_date` (lines 392-409): parse both bounds with
`%Y-%m-%d`, widen the end to `23:59:59`, and filter inclusively. -/
def get_activities_by_date (activities : List ActivityRecord)
    (start_date_str end_date_str : String) : Except String (List ActivityRecord) :=
  match strptimeYmd start_date_str with
  | none => .error "ValueError: time data does not match format"
  | some start_dt =>
    match strptimeYmd end_date_str with
    | none => .error "ValueError: time data does not match format"
    | some end_dt0 =>
      let end_dt : DateTime :=
        { end_dt0 with hour := 23, minute := 59, second := 59 }
      filterActivitiesInRange start_dt end_dt activities

/-! ## The FIT-file index and its cache -/

/-- `FitFileEntry` (line 51): the namedtuple
`(date, activity, zip_file_name, fit_file_name)`.  `date` is the
session start normalized to UTC. -/
structure FitFileEntry where
  date : DateTime
  activity : String
  zip_file_name : String
  fit_file_name : String
deriving DecidableEq

/-- One serialized entry of the JSON cache document
(`cache_fit_file_index`, lines 61-80). -/
structure CachedEntryJson where
  date : String
  zip_file_name : String
  fit_file_name : String
  activity : String
deriving DecidableEq

/-- `cache_fit_file_index`: serialize each entry; `json.dump` itself is
the external JSON codec and preserves this list exactly. -/
def cache_fit_file_index (fit_file_index : List FitFileEntry) : List CachedEntryJson :=
  fit_file_index.map (fun entry =>
    { date := String.mk (isoformatChars entry.date)
      zip_file_name := entry.zip_file_name
      fit_file_name := entry.fit_file_name
      activity := entry.activity })

/-- The entry-reconstruction loop of `load_cached_fit_file_index` (lines
95-104): `datetime.fromisoformat` on each stored date (ValueError on a
malformed one aborts the load), `Path(...)` round-trips the path string.
The serializer only ever writes `+00:00` offsets, whose wall clock is
the UTC instant itself. -/
def deserializeEntries : List CachedEntryJson → Except String (List FitFileEntry)
  | [] => .ok []
  | j :: rest =>
    match fromisoformat j.date with
    | none => .error "ValueError: invalid isoformat string"
    | some p =>
      match deserializeEntries rest with
      | .error e => .error e
      | .ok r =>
        .ok ({ date := p.wall
               activity := j.activity
               zip_file_name := j.zip_file_name
               fit_file_name := j.fit_file_name } :: r)

/-- `load_cached_fit_file_index` (lines 83-106): `none` input models the
cache file not existing (the function returns `None`); otherwise the
parsed JSON document is deserialized entry by entry. -/
def load_cached_fit_file_index (cacheFile : Option (List CachedEntryJson)) :
    Except String (Option (List FitFileEntry)) :=
  match cacheFile with
  | none => .ok none
  | some data =>
    match deserializeEntries data with
    | .error e => .error e
    | .ok idx => .ok (some idx)

/-- The constructor's index selection (lines 151-154):
`load_cached_fit_file_index(...) or self.load_fit_file_index()`.
Python `or` falls through both on `None` (no cache file) and on an empty
list (a cached empty index is falsy), in which case the indexing pass
result is used. -/
def initFitFileIndex (cacheFile : Option (List CachedEntryJson))
    (indexingPassResult : List FitFileEntry) : Except String (List FitFileEntry) :=
  match load_cached_fit_file_index cacheFile with
  | .error e => .error e
  | .ok none => .ok indexingPassResult
  | .ok (some cached) =>
    .ok (if cached.isEmpty then indexingPassResult else cached)

/-! ## The recording-file indexer (`load_fit_file_index`, lines 292-352)

The external FIT decoder is modelled at its interface (spec section 6):
a parsed file is a list of named messages; of a `session` message the
importer reads the `start_time` and `sport` fields through
`get_fields`, a dict of the fields present in the message (`none`
models an absent field; present fields carry proper values). -/

structure FitMessage where
  name : String
  start_time : Option DateTime
  sport : Option String
deriving DecidableEq

/-- The last `session` message of a file (each `session` message
overwrites `session_date`/`session_sport` in the source's loop). -/
def lastSessionMsg : List FitMessage → Option FitMessage
  | [] => none
  | m :: rest =>
    match lastSessionMsg rest with
    | some m2 => some m2
    | none => if m.name = "session" then some m else none

/-- The `for msg in fit_file.messages` loop: on each `session` message,
read `session_data["start_time"]` (KeyError when absent) and
`session_data.get("sport", "Unknown")`. -/
def scanSessionMsgs (acc : Option String × Option DateTime) :
    List FitMessage → Except String (Option String × Option DateTime)
  | [] => .ok acc
  | m :: rest =>
    if m.name = "session" then
      match m.start_time with
      | none => .error "KeyError: start_time"
      | some d => scanSessionMsgs (some (m.sport.getD "Unknown"), some d) rest
    else scanSessionMsgs acc rest

/-- Indexing of one `.fit` archive member: an entry when the scan left
both a sport and a date, nothing otherwise. -/
def indexFitFile (zip_file_path fit_file_name : String)
    (messages : List FitMessage) : Except String (Option FitFileEntry) :=
  match scanSessionMsgs (none, none) messages with
  | .error e => .error e
  | .ok (some sport, some date) =>
    .ok (some { date := date, activity := sport,
                zip_file_name := zip_file_path, fit_file_name := fit_file_name })
  | .ok _ => .ok none

/-- A member of a recording archive, already decoded by the external FIT
parser (a `FitParseError` is fatal before this point). -/
structure ZipMember where
  name : String
  messages : List FitMessage
deriving DecidableEq

structure ZipArchive where
  path : String
  members : List ZipMember
deriving DecidableEq

/-- `filename.lower().endswith(".fit")`. -/
def hasFitExt (nm : String) : Bool :=
  List.isSuffixOf ".fit".data (nm.data.map Char.toLower)

/-- The member loop of `load_fit_file_index` for one archive. -/
def indexZipMembers (zip_file_path : String) :
    List ZipMember → Except String (List FitFileEntry)
  | [] => .ok []
  | m :: rest =>
    if hasFitExt m.name then
      match indexFitFile zip_file_path m.name m.messages with
      | .error e => .error e
      | .ok entry =>
        match indexZipMembers zip_file_path rest with
        | .error e => .error e
        | .ok r =>
          .ok (match entry with
               | some e => e :: r
               | none => r)
    else indexZipMembers zip_file_path rest

/-- `load_fit_file_index` over all discovered archives (the cache write
that follows is the serialization `cache_fit_file_index` above). -/
def load_fit_file_index : List ZipArchive → Except String (List FitFileEntry)
  | [] => .ok []
  | z :: rest =>
    match indexZipMembers z.path z.members with
    | .error e => .error e
    | .ok r1 =>
      match load_fit_file_index rest with
      | .error e => .error e
      | .ok r2 => .ok (r1 ++ r2)

/-! ## The query facade and `download_activity` -/

inductive ActivityDownloadFormat where
  | ORIGINAL
  | TCX
deriving DecidableEq

/-- The in-memory state `GarminBulkExport.__init__` leaves behind.  No
method of the class assigns to any of these fields after construction,
so every query below is a pure function of this structure. -/
structure GarminBulkExport where
  activities : List ActivityRecord
  sleep_stats : Dict SleepRecord
  agg_stats : Dict AggRecord
  hydration_stats : Dict HydrationObj
  fit_file_index : List FitFileEntry
deriving DecidableEq

/-- `MAX_TIME_DIFF_SECONDS` (line 435). -/
def MAX_TIME_DIFF_SECONDS : Nat := 300

/-- The matching loop of `download_activity` (lines 437-446), carrying
`best_match` and `best_delta` through the sequential scan of
`fit_file_index`. -/
def selectBest (activity_start : DateTime) :
    List FitFileEntry → Option FitFileEntry → Option Nat →
      Option FitFileEntry × Option Nat
  | [], best_match, best_delta => (best_match, best_delta)
  | entry :: rest, best_match, best_delta =>
    let delta := deltaSeconds entry.date activity_start
    if delta ≤ MAX_TIME_DIFF_SECONDS then
      match best_delta with
      | none => selectBest activity_start rest (some entry) (some delta)
      | some b =>
        if delta < b then selectBest activity_start rest (some entry) (some delta)
        else selectBest activity_start rest best_match best_delta
    else selectBest activity_start rest best_match best_delta

/-- `s.split("/")[-1]`. -/
def baseName (s : String) : String := List.getLastD (s.splitOn "/") s

/-- What `download_activity` returns: `b""` for the TCX format, or the
in-memory single-file ZIP repackaging the matched member's bytes under
its base name.  The archive read and rewrite are the external
compressed-archive codec; the repackaged result is identified by the
inner name it carries and the member it was read from. -/
inductive DownloadResult where
  | emptyBytes
  | zipFile (innerName : String) (srcZip : String) (srcFit : String)
deriving DecidableEq

/-- The `next(...)` search for the activity summary (lines 422-425).
A found summary is a nonempty dict, so `if not activity:` is exactly the
`none` case here. -/
def findActivityById (activities : List ActivityRecord) (activityId : Int) :
    Option ActivityRecord :=
  activities.find? (fun a => a.activityId == some activityId)

/-- `download_activity` (lines 411-475). -/
def download_activity (fac : GarminBulkExport) (activityId : Int)
    (dl_fmt : ActivityDownloadFormat) : Except String DownloadResult :=
  match dl_fmt with
  | .TCX => .ok .emptyBytes
  | .ORIGINAL =>
    match findActivityById fac.activities activityId with
    | none => .error ("Activity ID not found: " ++ toString activityId)
    | some activity =>
      match strptimeYmdHms activity.startTimeGMT with
      | none => .error "ValueError: time data does not match format"
      | some activity_start =>
        match selectBest activity_start fac.fit_file_index none none with
        | (some best_match, _) =>
          .ok (.zipFile (baseName best_match.fit_file_name)
            best_match.zip_file_name best_match.fit_file_name)
        | (none, _) =>
          .error ("No matching FIT file found for activityId=" ++ toString activityId)

/-! ## Helper lemmas -/

deriving instance DecidableEq for Except

theorem dlookup_dinsert_self {α : Type} (d : Dict α) (k : String) (v : α) :
    dlookup (dinsert d k v) k = some v := by
  simp [dlookup, dinsert, List.find?]

theorem deserializeEntries_length (jl : List CachedEntryJson) :
    ∀ es, deserializeEntries jl = .ok es → es.length = jl.length := by
  induction jl with
  | nil => intro es h; simp [deserializeEntries] at h; simp [← h]
  | cons j rest ih =>
    intro es h
    simp only [deserializeEntries] at h
    cases hp : fromisoformat j.date with
    | none => rw [hp] at h; exact absurd h (by simp)
    | some p =>
      rw [hp] at h
      cases hr : deserializeEntries rest with
      | error e => rw [hr] at h; exact absurd h (by simp)
      | ok r =>
        rw [hr] at h
        simp only [Except.ok.injEq] at h
        subst h
        simp [ih r hr]

/-! ## Claim C3 -/

/-- Claim C3, corrected.  During aggregate-file merging, a second
non-hydration daily-stats entry whose raw `calendarDate` string is
already a key of the merged aggregate map raises a fatal error, while a
second hydration entry for an already-seen date never fails and the
later entry replaces the earlier one (last write wins).  (The duplicate
test uses the unstripped date while keys are stored stripped, so a
duplicate calendar date spelled with surrounding whitespace is silently
overwritten — see the counterexample.) -/
theorem c3_agg_duplicate_fatal_hydration_last_write_wins
    (sleepD : Dict SleepRecord) (stA stH : Dict AggRecord × Dict HydrationObj)
    (dup hyd : AggObj) (h : HydrationObj) (d1 d2 : String)
    (h1 : dup.hydration = none) (h2 : dup.calendarDate = some d1)
    (h3 : dcontains stA.1 d1 = true)
    (h4 : hyd.hydration = some h) (h5 : h.calendarDate = some d2) :
    loadAggStep sleepD stA dup =
      .error ("Duplicate entries found for aggregated stats dated on " ++ d1) ∧
    loadAggStep sleepD stH hyd = .ok (stH.1, dinsert stH.2 (pyStrip d2) h) ∧
    dlookup (dinsert stH.2 (pyStrip d2) h) (pyStrip d2) = some h := by
  refine ⟨?_, ?_, ?_⟩
  · simp [loadAggStep, h1, h2, h3]
  · simp [loadAggStep, h4, h5]
  · exact dlookup_dinsert_self _ _ _

/-- Witness for C3: a concrete duplicate daily-stats entry fails, a
concrete duplicate hydration entry is overwritten. -/
theorem c3_witness :
    loadAggStep [] (([("2024-01-01", (⟨⟨none, some "2024-01-01", none, 1⟩, none⟩ : AggRecord))] : Dict AggRecord), ([] : Dict HydrationObj))
        (⟨none, some "2024-01-01", none, 2⟩ : AggObj) =
      .error "Duplicate entries found for aggregated stats dated on 2024-01-01" ∧
    loadAggStep [] (([] : Dict AggRecord), ([("2024-01-01", (⟨some "2024-01-01", 1⟩ : HydrationObj))] : Dict HydrationObj))
        (⟨some ⟨some "2024-01-01", 2⟩, none, none, 0⟩ : AggObj) =
      .ok ([], dinsert [("2024-01-01", (⟨some "2024-01-01", 1⟩ : HydrationObj))] (pyStrip "2024-01-01")
            (⟨some "2024-01-01", 2⟩ : HydrationObj)) ∧
    dlookup (dinsert [("2024-01-01", (⟨some "2024-01-01", 1⟩ : HydrationObj))] (pyStrip "2024-01-01")
        (⟨some "2024-01-01", 2⟩ : HydrationObj)) (pyStrip "2024-01-01") =
      some (⟨some "2024-01-01", 2⟩ : HydrationObj) := by
  exact c3_agg_duplicate_fatal_hydration_last_write_wins
    _ _ _ _ _ _ _ _ rfl rfl (by decide) rfl rfl

/-- Counterexample for C3 as stated: the duplicate test compares the raw
date against keys stored stripped, so a second daily-stats entry for
calendar date `2024-01-01`, spelled `" 2024-01-01"`, does not raise — it
silently overwrites the stored record (`payload` 1 becomes 2). -/
theorem c3_counterexample_whitespace_duplicate :
    pyStrip " 2024-01-01" = "2024-01-01" ∧
    runAggStats [] ([], [])
        [⟨none, some "2024-01-01", none, 1⟩, ⟨none, some " 2024-01-01", none, 2⟩] =
      .ok ([("2024-01-01", ⟨⟨none, some " 2024-01-01", none, 2⟩, none⟩),
            ("2024-01-01", ⟨⟨none, some "2024-01-01", none, 1⟩, none⟩)], []) ∧
    dlookup [("2024-01-01", (⟨⟨none, some " 2024-01-01", none, 2⟩, none⟩ : AggRecord)),
             ("2024-01-01", ⟨⟨none, some "2024-01-01", none, 1⟩, none⟩)] "2024-01-01" =
      some ⟨⟨none, some " 2024-01-01", none, 2⟩, none⟩ := by
  decide

/-! ## Claim C8 -/

/-- Claim C8: during merging, a sleep-record object lacking the
calendar-date key is skipped silently (the merged map is unchanged and
no error is raised), whereas a non-hydration aggregate object lacking
the calendar-date key makes the merger fail (the source reads
`stats["calendarDate"]`, a KeyError). -/
theorem c8_sleep_skip_agg_keyerror
    (acc : Dict SleepRecord) (sleepObj : RawSleepObj)
    (sleepD : Dict SleepRecord) (st : Dict AggRecord × Dict HydrationObj)
    (aggObj : AggObj)
    (h1 : sleepObj.calendarDate = none)
    (h2 : aggObj.hydration = none) (h3 : aggObj.calendarDate = none) :
    loadSleepStep acc sleepObj = .ok acc ∧
    loadAggStep sleepD st aggObj = .error "KeyError: calendarDate" := by
  constructor
  · simp [loadSleepStep, h1]
  · simp [loadAggStep, h2, h3]

/-- Witness for C8 at concrete records. -/
theorem c8_witness :
    loadSleepStep [("2024-01-01", ⟨"2024-01-01", 0, none, none, none, none, 3⟩)]
        ⟨none, none, some 1, none, none, none, 5⟩ =
      .ok [("2024-01-01", ⟨"2024-01-01", 0, none, none, none, none, 3⟩)] ∧
    loadAggStep [] ([], []) ⟨none, none, some true, 7⟩ =
      .error "KeyError: calendarDate" :=
  c8_sleep_skip_agg_keyerror
    [("2024-01-01", ⟨"2024-01-01", 0, none, none, none, none, 3⟩)]
    ⟨none, none, some 1, none, none, none, 5⟩
    [] ([], []) ⟨none, none, some true, 7⟩ rfl rfl rfl

/-! ## Claim C5 -/

/-- Claim C5, corrected: whenever the cache file exists and its content
deserializes to a nonempty entry list, facade construction uses that
list as the recording-file index — no archive-indexing pass, no
staleness check, whatever the indexing pass would have produced.  (A
cache deserializing to the empty list is discarded by the Python `or`
and the indexing pass runs instead — see the counterexample.) -/
theorem c5_nonempty_cache_used_unconditionally
    (jl : List CachedEntryJson) (es indexingPassResult : List FitFileEntry)
    (h1 : deserializeEntries jl = .ok es) (h2 : jl ≠ []) :
    initFitFileIndex (some jl) indexingPassResult = .ok es := by
  have hlen : es.length = jl.length := deserializeEntries_length jl es h1
  have hne : es.isEmpty = false := by
    cases es with
    | nil => cases jl with
      | nil => exact absurd rfl h2
      | cons a l => simp at hlen
    | cons a l => rfl
  simp [initFitFileIndex, load_cached_fit_file_index, h1, hne]

/-- Witness for C5 (amended): a one-entry cache is used verbatim and the
indexing pass result is ignored. -/
theorem c5_witness :
    deserializeEntries [⟨"2024-01-01T10:00:00+00:00", "a.zip", "x.fit", "running"⟩] =
      .ok [⟨⟨2024, 1, 1, 10, 0, 0⟩, "running", "a.zip", "x.fit"⟩] ∧
    initFitFileIndex (some [⟨"2024-01-01T10:00:00+00:00", "a.zip", "x.fit", "running"⟩])
        [⟨⟨2000, 2, 2, 2, 2, 2⟩, "other", "b.zip", "y.fit"⟩] =
      .ok [⟨⟨2024, 1, 1, 10, 0, 0⟩, "running", "a.zip", "x.fit"⟩] :=
  ⟨by decide,
   c5_nonempty_cache_used_unconditionally
     [⟨"2024-01-01T10:00:00+00:00", "a.zip", "x.fit", "running"⟩]
     [⟨⟨2024, 1, 1, 10, 0, 0⟩, "running", "a.zip", "x.fit"⟩]
     [⟨⟨2000, 2, 2, 2, 2, 2⟩, "other", "b.zip", "y.fit"⟩]
     (by decide) (by decide)⟩

/-- Counterexample for C5 as stated: a cache file that exists and holds
the empty JSON list is NOT used as the index — the empty list is falsy,
`or` falls through, and the archive-indexing pass result is used. -/
theorem c5_counterexample_empty_cache :
    initFitFileIndex (some [])
        [⟨⟨2024, 1, 1, 10, 0, 0⟩, "running", "a.zip", "x.fit"⟩] =
      .ok [⟨⟨2024, 1, 1, 10, 0, 0⟩, "running", "a.zip", "x.fit"⟩] ∧
    ([⟨⟨2024, 1, 1, 10, 0, 0⟩, "running", "a.zip", "x.fit"⟩] : List FitFileEntry) ≠ [] := by
  decide

/-! ## Claim C10 -/

/-- Claim C10: `iso_to_timestamp_ms` interprets the parsed wall-clock
fields as UTC and discards any timezone offset present in the string
(`dt.replace(tzinfo=timezone.utc)` overwrites the parsed tzinfo without
converting): two strings with identical wall-clock fields but different
offsets yield the same epoch-millisecond integer. -/
theorem c10_iso_offset_discarded (s1 s2 : String) (p1 p2 : PyDateTime)
    (h1 : fromisoformat s1 = some p1) (h2 : fromisoformat s2 = some p2)
    (h3 : p1.wall = p2.wall) :
    iso_to_timestamp_ms s1 = iso_to_timestamp_ms s2 := by
  simp [iso_to_timestamp_ms, h1, h2, h3]

/-- Witness for C10: `"2024-01-01T10:00:00+02:00"` and
`"2024-01-01T10:00:00Z"` carry different offsets (+120 and 0 minutes)
yet produce the same millisecond timestamp. -/
theorem c10_witness :
    fromisoformat "2024-01-01T10:00:00+02:00" =
      some ⟨⟨2024, 1, 1, 10, 0, 0⟩, some 120⟩ ∧
    fromisoformat "2024-01-01T10:00:00Z" =
      some ⟨⟨2024, 1, 1, 10, 0, 0⟩, some 0⟩ ∧
    iso_to_timestamp_ms "2024-01-01T10:00:00+02:00" =
      iso_to_timestamp_ms "2024-01-01T10:00:00Z" :=
  ⟨by decide, by decide,
   c10_iso_offset_discarded "2024-01-01T10:00:00+02:00" "2024-01-01T10:00:00Z"
     ⟨⟨2024, 1, 1, 10, 0, 0⟩, some 120⟩ ⟨⟨2024, 1, 1, 10, 0, 0⟩, some 0⟩
     (by decide) (by decide) rfl⟩

/-! ## Claim C4 -/

/-- The spec's interval, stated in its own words for comparison with the
code path: the normalized start time lies in the closed interval from
the start date at `00:00:00` to the end date at `23:59:59`. -/
def specActivityInRange (s e t : DateTime) : Bool :=
  DateTime.leB ⟨s.year, s.month, s.day, 0, 0, 0⟩ t &&
    DateTime.leB t ⟨e.year, e.month, e.day, 23, 59, 59⟩

theorem strptimeYmd_shape (s : String) (dt : DateTime)
    (h : strptimeYmd s = some dt) :
    dt = ⟨dt.year, dt.month, dt.day, 0, 0, 0⟩ := by
  unfold strptimeYmd at h
  cases hp : parseDatePart s.data with
  | none => rw [hp] at h; exact absurd h (by simp)
  | some p =>
    obtain ⟨y, mo, dy, rest⟩ := p
    rw [hp] at h
    cases rest with
    | nil => simp only [Option.some.injEq] at h; rw [← h]
    | cons c cs => exact absurd h (by simp)

theorem filterActivitiesInRange_eq (sdt edt : DateTime) (acts : List ActivityRecord)
    (h : ∀ a ∈ acts, (strptimeYmdHms a.startTimeGMT).isSome) :
    filterActivitiesInRange sdt edt acts = .ok (acts.filter (fun a =>
      match strptimeYmdHms a.startTimeGMT with
      | some t => sdt.leB t && t.leB edt
      | none => false)) := by
  induction acts with
  | nil => rfl
  | cons a rest ih =>
    have ha : (strptimeYmdHms a.startTimeGMT).isSome := h a (by simp)
    obtain ⟨t, ht⟩ := Option.isSome_iff_exists.mp ha
    have hrest := ih (fun x hx => h x (by simp [hx]))
    simp only [filterActivitiesInRange, ht, hrest, List.filter_cons]

/-- Claim C4: for date strings `s` and `e` (with `s` chronologically at
or before `e`) whose activities all carry re-parseable start strings,
`get_activities_by_date` returns exactly the loaded activities whose
normalized start time lies in the closed interval from `s` at
`00:00:00` to `e` at `23:59:59`, inclusive on both ends. -/
theorem c4_activities_by_date_inclusive_range
    (acts : List ActivityRecord) (s e : String) (sdt edt0 : DateTime)
    (h1 : strptimeYmd s = some sdt) (h2 : strptimeYmd e = some edt0)
    (h3 : sdt.leB edt0 = true)
    (h4 : ∀ a ∈ acts, (strptimeYmdHms a.startTimeGMT).isSome) :
    get_activities_by_date acts s e = .ok (acts.filter (fun a =>
      match strptimeYmdHms a.startTimeGMT with
      | some t => specActivityInRange sdt edt0 t
      | none => false)) := by
  unfold get_activities_by_date
  rw [h1, h2]
  show filterActivitiesInRange sdt ⟨edt0.year, edt0.month, edt0.day, 23, 59, 59⟩ acts = _
  rw [filterActivitiesInRange_eq _ _ acts h4]
  congr 1
  apply List.filter_congr
  intro a _
  cases ht : strptimeYmdHms a.startTimeGMT with
  | none => simp
  | some t =>
    simp only [specActivityInRange]
    rw [← strptimeYmd_shape s sdt h1]

/-- Witness for C4: two activities on 2024-01-01 and 2024-01-03, range
`["2024-01-01", "2024-01-02"]`: only the first is returned. -/
theorem c4_witness :
    get_activities_by_date
        [⟨some 1, "2024-01-01 10:00:00", 0⟩, ⟨some 2, "2024-01-03 00:00:00", 0⟩]
        "2024-01-01" "2024-01-02" =
      .ok ([⟨some 1, "2024-01-01 10:00:00", 0⟩, ⟨some 2, "2024-01-03 00:00:00", 0⟩].filter
        (fun a =>
          match strptimeYmdHms a.startTimeGMT with
          | some t => specActivityInRange ⟨2024, 1, 1, 0, 0, 0⟩ ⟨2024, 1, 2, 0, 0, 0⟩ t
          | none => false)) ∧
    ([⟨some 1, "2024-01-01 10:00:00", 0⟩, ⟨some 2, "2024-01-03 00:00:00", 0⟩].filter
        (fun a =>
          match strptimeYmdHms a.startTimeGMT with
          | some t => specActivityInRange ⟨2024, 1, 1, 0, 0, 0⟩ ⟨2024, 1, 2, 0, 0, 0⟩ t
          | none => false) : List ActivityRecord) =
      [⟨some 1, "2024-01-01 10:00:00", 0⟩] := by
  constructor
  · exact c4_activities_by_date_inclusive_range _ _ _ _ _
      (by decide) (by decide) (by decide) (by decide)
  · decide

/-! ## Claim C9 -/

theorem lastSessionMsg_none (msgs : List FitMessage)
    (h : ∀ m ∈ msgs, m.name ≠ "session") : lastSessionMsg msgs = none := by
  induction msgs with
  | nil => rfl
  | cons m rest ih =>
    have hm : m.name ≠ "session" := h m (by simp)
    have := ih (fun x hx => h x (by simp [hx]))
    simp [lastSessionMsg, this, hm]

theorem scanSessionMsgs_eq (msgs : List FitMessage) :
    ∀ acc, (∀ m ∈ msgs, m.name = "session" → (m.start_time).isSome) →
    scanSessionMsgs acc msgs = .ok (match lastSessionMsg msgs with
      | none => acc
      | some m => (some (m.sport.getD "Unknown"), m.start_time)) := by
  induction msgs with
  | nil => intro acc _; rfl
  | cons m rest ih =>
    intro acc h
    by_cases hm : m.name = "session"
    · have hst : (m.start_time).isSome := h m (by simp) hm
      obtain ⟨d, hd⟩ := Option.isSome_iff_exists.mp hst
      have hrest := ih (some (m.sport.getD "Unknown"), some d)
        (fun x hx hs => h x (by simp [hx]) hs)
      simp only [scanSessionMsgs, hm, if_pos rfl, hd]
      rw [hrest]
      simp only [lastSessionMsg, hm, if_pos rfl]
      cases hl : lastSessionMsg rest with
      | none => simp [hd]
      | some m2 => simp
    · have hrest := ih acc (fun x hx hs => h x (by simp [hx]) hs)
      simp only [scanSessionMsgs, hm, if_neg hm]
      rw [hrest]
      simp only [lastSessionMsg]
      cases hl : lastSessionMsg rest with
      | none => simp [hm]
      | some m2 => simp

/-- Claim C9: during indexing, a recording file yielding no session
message is silently skipped (no index entry, no error); a recording
file yielding session messages (each carrying a session start, as the
decoder interface provides) produces an index entry whose activity type
is the session's `sport` field, defaulting to `"Unknown"` when that
field is absent.  When several session messages are present, the last
one wins, mirroring the source's overwrite loop. -/
theorem c9_indexer_session_handling (z f : String)
    (msgsA msgsB : List FitMessage) (m : FitMessage) (d : DateTime)
    (h1 : ∀ x ∈ msgsA, x.name ≠ "session")
    (h2 : ∀ x ∈ msgsB, x.name = "session" → (x.start_time).isSome)
    (h3 : lastSessionMsg msgsB = some m) (h4 : m.start_time = some d) :
    indexFitFile z f msgsA = .ok none ∧
    indexFitFile z f msgsB =
      .ok (some ⟨d, m.sport.getD "Unknown", z, f⟩) := by
  constructor
  · have hs := scanSessionMsgs_eq msgsA (none, none)
      (fun x hx hn => absurd hn (h1 x hx))
    rw [lastSessionMsg_none msgsA h1] at hs
    simp [indexFitFile, hs]
  · have hs := scanSessionMsgs_eq msgsB (none, none) h2
    rw [h3] at hs
    simp [indexFitFile, hs, h4]

/-- Witness for C9: a file with only a `record` message yields nothing;
a file with two session messages (the second lacking a `sport` field)
yields one entry dated by the second session with activity
`"Unknown"`. -/
theorem c9_witness :
    indexFitFile "a.zip" "x.fit" [⟨"record", none, none⟩] = .ok none ∧
    indexFitFile "a.zip" "x.fit"
        [⟨"session", some ⟨2024, 1, 1, 10, 0, 0⟩, some "running"⟩,
         ⟨"session", some ⟨2024, 1, 2, 11, 0, 0⟩, none⟩] =
      .ok (some ⟨⟨2024, 1, 2, 11, 0, 0⟩,
        (none : Option String).getD "Unknown", "a.zip", "x.fit"⟩) := by
  exact c9_indexer_session_handling "a.zip" "x.fit"
    [⟨"record", none, none⟩]
    [⟨"session", some ⟨2024, 1, 1, 10, 0, 0⟩, some "running"⟩,
     ⟨"session", some ⟨2024, 1, 2, 11, 0, 0⟩, none⟩]
    ⟨"session", some ⟨2024, 1, 2, 11, 0, 0⟩, none⟩ ⟨2024, 1, 2, 11, 0, 0⟩
    (by decide) (by decide) (by decide) rfl

/-! ## Claims C1 and C7: the nearest-match scan -/

theorem selectBest_all_far (t : DateTime) (l : List FitFileEntry)
    (h : ∀ x ∈ l, ¬ deltaSeconds x.date t ≤ 300) :
    ∀ bm bd, selectBest t l bm bd = (bm, bd) := by
  induction l with
  | nil => intro bm bd; rfl
  | cons e rest ih =>
    intro bm bd
    have he : ¬ deltaSeconds e.date t ≤ 300 := h e (by simp)
    have hrest := ih (fun x hx => h x (by simp [hx]))
    simp only [selectBest, MAX_TIME_DIFF_SECONDS]
    rw [if_neg he]
    exact hrest bm bd

theorem selectBest_acc_spec (t : DateTime) (l : List FitFileEntry) :
    ∀ (b e : FitFileEntry) (db d : Nat),
      selectBest t l (some b) (some db) = (some e, some d) →
      (e = b ∧ d = db ∧
        ∀ x ∈ l, deltaSeconds x.date t ≤ 300 → db ≤ deltaSeconds x.date t) ∨
      (∃ l1 l2, l = l1 ++ e :: l2 ∧ d = deltaSeconds e.date t ∧ d ≤ 300 ∧ d < db ∧
        (∀ x ∈ l1, deltaSeconds x.date t ≤ 300 → d < deltaSeconds x.date t) ∧
        (∀ x ∈ l2, deltaSeconds x.date t ≤ 300 → d ≤ deltaSeconds x.date t)) := by
  induction l with
  | nil =>
    intro b e db d h
    simp only [selectBest, Prod.mk.injEq, Option.some.injEq] at h
    exact Or.inl ⟨h.1.symm, h.2.symm, by simp⟩
  | cons x rest ih =>
    intro b e db d h
    simp only [selectBest, MAX_TIME_DIFF_SECONDS] at h
    by_cases hw : deltaSeconds x.date t ≤ 300
    · rw [if_pos hw] at h
      by_cases hlt : deltaSeconds x.date t < db
      · rw [if_pos hlt] at h
        rcases ih x e (deltaSeconds x.date t) d h with
          ⟨he, hd, hbound⟩ | ⟨l1, l2, hsplit, hd, hle, hlt2, hb1, hb2⟩
        · refine Or.inr ⟨[], rest, by simp [he], by rw [hd, he], ?_, ?_, by simp, ?_⟩
          · rw [hd]; exact hw
          · rw [hd]; exact hlt
          · intro y hy hyw
            rw [hd]
            exact hbound y hy hyw
        · refine Or.inr ⟨x :: l1, l2, by simp [hsplit], hd, hle, ?_, ?_, hb2⟩
          · exact lt_trans hlt2 hlt
          · intro y hy hyw
            rcases List.mem_cons.mp hy with hyx | hyl
            · rw [hyx]; exact hlt2
            · exact hb1 y hyl hyw
      · rw [if_neg hlt] at h
        rcases ih b e db d h with
          ⟨he, hd, hbound⟩ | ⟨l1, l2, hsplit, hd, hle, hlt2, hb1, hb2⟩
        · refine Or.inl ⟨he, hd, ?_⟩
          intro y hy hyw
          rcases List.mem_cons.mp hy with hyx | hyl
          · rw [hyx]; omega
          · exact hbound y hyl hyw
        · refine Or.inr ⟨x :: l1, l2, by simp [hsplit], hd, hle, hlt2, ?_, hb2⟩
          intro y hy hyw
          rcases List.mem_cons.mp hy with hyx | hyl
          · rw [hyx]; omega
          · exact hb1 y hyl hyw
    · rw [if_neg hw] at h
      rcases ih b e db d h with
        ⟨he, hd, hbound⟩ | ⟨l1, l2, hsplit, hd, hle, hlt2, hb1, hb2⟩
      · refine Or.inl ⟨he, hd, ?_⟩
        intro y hy hyw
        rcases List.mem_cons.mp hy with hyx | hyl
        · rw [hyx] at hyw; exact absurd hyw hw
        · exact hbound y hyl hyw
      · refine Or.inr ⟨x :: l1, l2, by simp [hsplit], hd, hle, hlt2, ?_, hb2⟩
        intro y hy hyw
        rcases List.mem_cons.mp hy with hyx | hyl
        · rw [hyx] at hyw; exact absurd hyw hw
        · exact hb1 y hyl hyw

theorem selectBest_none_spec (t : DateTime) (l : List FitFileEntry) :
    ∀ (e : FitFileEntry) (d : Nat),
      selectBest t l none none = (some e, some d) →
      ∃ l1 l2, l = l1 ++ e :: l2 ∧ d = deltaSeconds e.date t ∧ d ≤ 300 ∧
        (∀ x ∈ l1, deltaSeconds x.date t ≤ 300 → d < deltaSeconds x.date t) ∧
        (∀ x ∈ l2, deltaSeconds x.date t ≤ 300 → d ≤ deltaSeconds x.date t) := by
  induction l with
  | nil => intro e d h; simp [selectBest] at h
  | cons x rest ih =>
    intro e d h
    simp only [selectBest, MAX_TIME_DIFF_SECONDS] at h
    by_cases hw : deltaSeconds x.date t ≤ 300
    · rw [if_pos hw] at h
      rcases selectBest_acc_spec t rest x e (deltaSeconds x.date t) d h with
        ⟨he, hd, hbound⟩ | ⟨l1, l2, hsplit, hd, hle, hlt2, hb1, hb2⟩
      · refine ⟨[], rest, by simp [he], by rw [hd, he], by rw [hd]; exact hw, by simp, ?_⟩
        intro y hy hyw
        rw [hd]
        exact hbound y hy hyw
      · refine ⟨x :: l1, l2, by simp [hsplit], hd, hle, ?_, hb2⟩
        intro y hy hyw
        rcases List.mem_cons.mp hy with hyx | hyl
        · rw [hyx]; exact hlt2
        · exact hb1 y hyl hyw
    · rw [if_neg hw] at h
      obtain ⟨l1, l2, hsplit, hd, hle, hb1, hb2⟩ := ih e d h
      refine ⟨x :: l1, l2, by simp [hsplit], hd, hle, ?_, hb2⟩
      intro y hy hyw
      rcases List.mem_cons.mp hy with hyx | hyl
      · rw [hyx] at hyw; exact absurd hyw hw
      · exact hb1 y hyl hyw

/-- Claim C1: when `download_activity` is called in the original-binary
format and the activity with the requested identifier exists (and an
entry is selected), the selected recording-index entry has absolute
delta at most 300 seconds from the activity's start, that delta is
minimal among all entries within the window, and the entry is the first
one in index iteration order attaining it (every window entry strictly
before it has a strictly larger delta); the returned archive repackages
exactly that entry. -/
theorem c1_download_selects_first_nearest (fac : GarminBulkExport)
    (activityId : Int) (activity : ActivityRecord) (activity_start : DateTime)
    (e : FitFileEntry) (d : Nat)
    (h1 : findActivityById fac.activities activityId = some activity)
    (h2 : strptimeYmdHms activity.startTimeGMT = some activity_start)
    (h3 : selectBest activity_start fac.fit_file_index none none = (some e, some d)) :
    download_activity fac activityId .ORIGINAL =
      .ok (.zipFile (baseName e.fit_file_name) e.zip_file_name e.fit_file_name) ∧
    deltaSeconds e.date activity_start ≤ 300 ∧
    (∀ x ∈ fac.fit_file_index, deltaSeconds x.date activity_start ≤ 300 →
      deltaSeconds e.date activity_start ≤ deltaSeconds x.date activity_start) ∧
    ∃ l1 l2, fac.fit_file_index = l1 ++ e :: l2 ∧
      ∀ x ∈ l1, deltaSeconds x.date activity_start ≤ 300 →
        deltaSeconds e.date activity_start < deltaSeconds x.date activity_start := by
  obtain ⟨l1, l2, hsplit, hd, hle, hb1, hb2⟩ :=
    selectBest_none_spec activity_start fac.fit_file_index e d h3
  rw [hd] at hle hb1 hb2
  refine ⟨?_, hle, ?_, l1, l2, hsplit, hb1⟩
  · simp [download_activity, h1, h2, h3]
  · intro x hx hxw
    rw [hsplit] at hx
    rcases List.mem_append.mp hx with hxl | hxr
    · exact le_of_lt (hb1 x hxl hxw)
    · rcases List.mem_cons.mp hxr with hxe | hxl2
      · rw [hxe]
      · exact hb2 x hxl2 hxw

/-- Witness for C1, matching the spec's scenario: two candidate entries
at deltas 200s and 10s (in that iteration order); the 10s entry is
selected and repackaged. -/
theorem c1_witness :
    download_activity
        ⟨[⟨some 42, "2024-01-01 10:00:00", 0⟩], [], [], [],
         [⟨⟨2024, 1, 1, 10, 3, 20⟩, "running", "a.zip", "sub/x200.fit"⟩,
          ⟨⟨2024, 1, 1, 10, 0, 10⟩, "running", "a.zip", "sub/x10.fit"⟩]⟩
        42 .ORIGINAL =
      .ok (.zipFile (baseName "sub/x10.fit") "a.zip" "sub/x10.fit") ∧
    deltaSeconds ⟨2024, 1, 1, 10, 0, 10⟩ ⟨2024, 1, 1, 10, 0, 0⟩ ≤ 300 ∧
    (∀ x ∈ ([⟨⟨2024, 1, 1, 10, 3, 20⟩, "running", "a.zip", "sub/x200.fit"⟩,
             ⟨⟨2024, 1, 1, 10, 0, 10⟩, "running", "a.zip", "sub/x10.fit"⟩] :
        List FitFileEntry),
      deltaSeconds x.date ⟨2024, 1, 1, 10, 0, 0⟩ ≤ 300 →
      deltaSeconds ⟨2024, 1, 1, 10, 0, 10⟩ ⟨2024, 1, 1, 10, 0, 0⟩ ≤
        deltaSeconds x.date ⟨2024, 1, 1, 10, 0, 0⟩) ∧
    ∃ l1 l2,
      ([⟨⟨2024, 1, 1, 10, 3, 20⟩, "running", "a.zip", "sub/x200.fit"⟩,
        ⟨⟨2024, 1, 1, 10, 0, 10⟩, "running", "a.zip", "sub/x10.fit"⟩] :
          List FitFileEntry) =
        l1 ++ (⟨⟨2024, 1, 1, 10, 0, 10⟩, "running", "a.zip", "sub/x10.fit"⟩ : FitFileEntry) :: l2 ∧
      ∀ x ∈ l1, deltaSeconds x.date ⟨2024, 1, 1, 10, 0, 0⟩ ≤ 300 →
        deltaSeconds ⟨2024, 1, 1, 10, 0, 10⟩ ⟨2024, 1, 1, 10, 0, 0⟩ <
          deltaSeconds x.date ⟨2024, 1, 1, 10, 0, 0⟩ := by
  exact c1_download_selects_first_nearest
    ⟨[⟨some 42, "2024-01-01 10:00:00", 0⟩], [], [], [],
     [⟨⟨2024, 1, 1, 10, 3, 20⟩, "running", "a.zip", "sub/x200.fit"⟩,
      ⟨⟨2024, 1, 1, 10, 0, 10⟩, "running", "a.zip", "sub/x10.fit"⟩]⟩
    42 ⟨some 42, "2024-01-01 10:00:00", 0⟩ ⟨2024, 1, 1, 10, 0, 0⟩
    ⟨⟨2024, 1, 1, 10, 0, 10⟩, "running", "a.zip", "sub/x10.fit"⟩ 10
    (by decide) (by decide) (by decide)

theorem findActivityById_eq_none (acts : List ActivityRecord) (i : Int)
    (h : ∀ a ∈ acts, a.activityId ≠ some i) : findActivityById acts i = none := by
  simp only [findActivityById]
  apply List.find?_eq_none.mpr
  intro a ha hbe
  exact h a ha (by simpa using hbe)

/-- Claim C7: `download_activity` in the original-binary format raises a
descriptive error both when no loaded activity carries the requested
identifier and when the identified activity has no recording-index
entry within 300 seconds of its start.  The method assigns to no field
of the facade, so in this embedding every query is a pure function of
the (unchanged) facade value: a failing download leaves all other
queries servable by construction. -/
theorem c7_download_errors_are_query_local
    (facA facB : GarminBulkExport) (idA idB : Int)
    (activity : ActivityRecord) (t : DateTime)
    (h1 : ∀ a ∈ facA.activities, a.activityId ≠ some idA)
    (h2 : findActivityById facB.activities idB = some activity)
    (h3 : strptimeYmdHms activity.startTimeGMT = some t)
    (h4 : ∀ x ∈ facB.fit_file_index, ¬ deltaSeconds x.date t ≤ 300) :
    download_activity facA idA .ORIGINAL =
      .error ("Activity ID not found: " ++ toString idA) ∧
    download_activity facB idB .ORIGINAL =
      .error ("No matching FIT file found for activityId=" ++ toString idB) := by
  constructor
  · simp [download_activity, findActivityById_eq_none facA.activities idA h1]
  · have hsel := selectBest_all_far t facB.fit_file_index h4 none none
    simp [download_activity, h2, h3, hsel]

/-- Witness for C7: an unknown identifier fails with the id in the
message; a known identifier with only a one-hour-away recording entry
fails with the no-match message. -/
theorem c7_witness :
    download_activity ⟨[⟨some 7, "2024-01-01 10:00:00", 0⟩], [], [], [], []⟩
        42 .ORIGINAL =
      .error ("Activity ID not found: " ++ toString (42 : Int)) ∧
    download_activity
        ⟨[⟨some 42, "2024-01-01 10:00:00", 0⟩], [], [], [],
         [⟨⟨2024, 1, 1, 11, 0, 0⟩, "running", "a.zip", "x.fit"⟩]⟩
        42 .ORIGINAL =
      .error ("No matching FIT file found for activityId=" ++ toString (42 : Int)) := by
  exact c7_download_errors_are_query_local
    ⟨[⟨some 7, "2024-01-01 10:00:00", 0⟩], [], [], [], []⟩
    ⟨[⟨some 42, "2024-01-01 10:00:00", 0⟩], [], [], [],
     [⟨⟨2024, 1, 1, 11, 0, 0⟩, "running", "a.zip", "x.fit"⟩]⟩
    42 42 ⟨some 42, "2024-01-01 10:00:00", 0⟩ ⟨2024, 1, 1, 10, 0, 0⟩
    (by decide) (by decide) (by decide) (by decide)

/-! ## Claim C2 -/

theorem dlookup_dinsert {α : Type} (d : Dict α) (k k2 : String) (v : α) :
    dlookup (dinsert d k v) k2 = if k = k2 then some v else dlookup d k2 := by
  unfold dlookup dinsert
  simp only [List.find?]
  by_cases h : k = k2
  · simp [h]
  · have hbe : (k == k2) = false := by simp [h]
    simp [hbe, h]

/-- The claim's formula, stated from the spec's words: the sum of the
deep, light, awake, and unmeasurable sleep-seconds fields of the
SleepRecord for the date, each missing field counted as zero; null when
no SleepRecord exists for the date or the sum is zero. -/
def specSleepingSeconds (sleepD : Dict SleepRecord) (d : String) : Option Nat :=
  match dlookup sleepD d with
  | none => none
  | some r =>
    let total := r.deepSleepSeconds.getD 0 + r.lightSleepSeconds.getD 0 +
      r.awakeSleepSeconds.getD 0 + r.unmeasurableSeconds.getD 0
    if total = 0 then none else some total

theorem calculate_eq_spec (sleepD : Dict SleepRecord) (d : String) :
    calculate_sleeping_seconds sleepD d = specSleepingSeconds sleepD d := by
  unfold calculate_sleeping_seconds specSleepingSeconds get_sleep_data
  cases dlookup sleepD d with
  | none => simp
  | some r =>
    by_cases h : (r.deepSleepSeconds.getD 0 + r.lightSleepSeconds.getD 0 +
        r.awakeSleepSeconds.getD 0 + r.unmeasurableSeconds.getD 0) = 0
    · simp [h]
    · have hpos : 0 < r.deepSleepSeconds.getD 0 + r.lightSleepSeconds.getD 0 +
          r.awakeSleepSeconds.getD 0 + r.unmeasurableSeconds.getD 0 :=
        Nat.pos_of_ne_zero h
      simp [h, hpos]

/-- The merge invariant tying every stored daily-stats record to the
raw date it was built from. -/
def AggSleepInv (sleepD : Dict SleepRecord) (agg : Dict AggRecord) : Prop :=
  ∀ k r, dlookup agg k = some r →
    ∃ raw, r.obj.calendarDate = some raw ∧ pyStrip raw = k ∧
      r.sleepingSeconds = calculate_sleeping_seconds sleepD raw

theorem runAggStats_inv (sleepD : Dict SleepRecord) (objs : List AggObj) :
    ∀ st st', AggSleepInv sleepD st.1 →
      runAggStats sleepD st objs = .ok st' → AggSleepInv sleepD st'.1 := by
  induction objs with
  | nil =>
    intro st st' hinv h
    simp only [runAggStats, Except.ok.injEq] at h
    rw [← h]
    exact hinv
  | cons o rest ih =>
    intro st st' hinv h
    simp only [runAggStats] at h
    cases hstep : loadAggStep sleepD st o with
    | error e => rw [hstep] at h; exact absurd h (by simp)
    | ok st2 =>
      rw [hstep] at h
      refine ih st2 st' ?_ h
      cases hh : o.hydration with
      | some hobj =>
        cases hcd : hobj.calendarDate with
        | none =>
          simp only [loadAggStep, hh, hcd] at hstep
          exact absurd hstep (by simp)
        | some dte =>
          simp only [loadAggStep, hh, hcd, Except.ok.injEq] at hstep
          rw [← hstep]
          exact hinv
      | none =>
        cases hcd : o.calendarDate with
        | none =>
          simp only [loadAggStep, hh, hcd] at hstep
          exact absurd hstep (by simp)
        | some dte =>
          simp only [loadAggStep, hh, hcd] at hstep
          by_cases hdup : dcontains st.1 dte = true
          · rw [if_pos hdup] at hstep; exact absurd hstep (by simp)
          · rw [if_neg hdup] at hstep
            simp only [Except.ok.injEq] at hstep
            rw [← hstep]
            intro k r hkr
            rw [dlookup_dinsert] at hkr
            by_cases hk : pyStrip dte = k
            · rw [if_pos hk] at hkr
              simp only [Option.some.injEq] at hkr
              exact ⟨dte, by rw [← hkr]; exact hcd, hk, by rw [← hkr]⟩
            · rw [if_neg hk] at hkr
              exact hinv k r hkr

/-- Claim C2, corrected.  For every date `d` and record `r` stored for
`d` by the aggregate merge, provided `r`'s raw `calendarDate` string is
exactly `d` (no surrounding whitespace), the injected `sleepingSeconds`
equals the sum of the deep, light, awake and unmeasurable sleep-seconds
fields of the SleepRecord for `d` (missing fields as zero), and is null
when no SleepRecord exists for `d` or that sum is zero; `get_stats d`
returns that same record whenever it does not set
`includesWellnessData` to `false`.  (A raw date with surrounding
whitespace is stored under the stripped key but has `sleepingSeconds`
computed from the unstripped string — see the counterexample.) -/
theorem c2_sleeping_seconds_injection (sleepD : Dict SleepRecord)
    (objs : List AggObj) (aggD : Dict AggRecord) (hydD : Dict HydrationObj)
    (d : String) (r : AggRecord)
    (h1 : load_agg_stats sleepD objs = .ok (aggD, hydD))
    (h2 : dlookup aggD d = some r)
    (h3 : r.obj.calendarDate = some d) :
    r.sleepingSeconds = specSleepingSeconds sleepD d ∧
    (r.obj.includesWellnessData ≠ some false → get_stats aggD d = .record r) := by
  have hinv : AggSleepInv sleepD aggD := by
    have h0 : AggSleepInv sleepD ([] : Dict AggRecord) := by
      intro k r2 hk
      simp [dlookup] at hk
    exact runAggStats_inv sleepD objs ([], []) (aggD, hydD) h0 h1
  obtain ⟨raw, hraw, hstrip, hss⟩ := hinv d r h2
  have hrd : raw = d := by
    rw [h3] at hraw
    exact (Option.some.injEq _ _ ▸ hraw).symm
  constructor
  · rw [hss, hrd, calculate_eq_spec]
  · intro hw
    unfold get_stats
    rw [h2]
    have hg : r.obj.includesWellnessData.getD true = true := by
      cases hwv : r.obj.includesWellnessData with
      | none => rfl
      | some b =>
        cases b with
        | true => rfl
        | false => exact absurd hwv hw
    simp [hg]

/-- Witness for C2 (amended), the spec's scenario: sleep record for
2024-01-01 with deep=100, light=200, awake=0, unmeasurable=0 and an
aggregate record for the same (whitespace-free) date: the injected
`sleepingSeconds` is 300 and `get_stats` surfaces it. -/
theorem c2_witness :
    (⟨⟨none, some "2024-01-01", none, 0⟩, some 300⟩ : AggRecord).sleepingSeconds =
      specSleepingSeconds
        [("2024-01-01", ⟨"2024-01-01", 0, some 100, some 200, some 0, some 0, 0⟩)]
        "2024-01-01" ∧
    specSleepingSeconds
        [("2024-01-01", ⟨"2024-01-01", 0, some 100, some 200, some 0, some 0, 0⟩)]
        "2024-01-01" = some 300 ∧
    get_stats [("2024-01-01", (⟨⟨none, some "2024-01-01", none, 0⟩, some 300⟩ : AggRecord))]
        "2024-01-01" =
      .record ⟨⟨none, some "2024-01-01", none, 0⟩, some 300⟩ := by
  have h := c2_sleeping_seconds_injection
    [("2024-01-01", ⟨"2024-01-01", 0, some 100, some 200, some 0, some 0, 0⟩)]
    [⟨none, some "2024-01-01", none, 0⟩]
    [("2024-01-01", ⟨⟨none, some "2024-01-01", none, 0⟩, some 300⟩)]
    [] "2024-01-01" ⟨⟨none, some "2024-01-01", none, 0⟩, some 300⟩
    (by decide) (by decide) rfl
  exact ⟨h.1, by decide, h.2 (by decide)⟩

/-- Counterexample for C2 as stated: an aggregate entry whose raw date
is `" 2024-01-01"` (surrounding whitespace) is stored for calendar date
`2024-01-01`, but its injected `sleepingSeconds` is null even though
the SleepRecord for `2024-01-01` sums to 300 — the injection looked the
sleep record up under the unstripped string. -/
theorem c2_counterexample_whitespace_date :
    load_agg_stats
        [("2024-01-01", ⟨"2024-01-01", 0, some 100, some 200, some 0, some 0, 0⟩)]
        [⟨none, some " 2024-01-01", none, 0⟩] =
      .ok ([("2024-01-01", ⟨⟨none, some " 2024-01-01", none, 0⟩, none⟩)], []) ∧
    dlookup [("2024-01-01", (⟨⟨none, some " 2024-01-01", none, 0⟩, none⟩ : AggRecord))]
        "2024-01-01" =
      some ⟨⟨none, some " 2024-01-01", none, 0⟩, none⟩ ∧
    specSleepingSeconds
        [("2024-01-01", ⟨"2024-01-01", 0, some 100, some 200, some 0, some 0, 0⟩)]
        "2024-01-01" = some 300 ∧
    (⟨⟨none, some " 2024-01-01", none, 0⟩, none⟩ : AggRecord).sleepingSeconds ≠
      specSleepingSeconds
        [("2024-01-01", ⟨"2024-01-01", 0, some 100, some 200, some 0, some 0, 0⟩)]
        "2024-01-01" ∧
    get_stats [("2024-01-01", (⟨⟨none, some " 2024-01-01", none, 0⟩, none⟩ : AggRecord))]
        "2024-01-01" =
      .record ⟨⟨none, some " 2024-01-01", none, 0⟩, none⟩ := by
  decide

/-! ## Claim C6 -/

theorem digitVal_digitChar (n : Nat) : digitVal (digitChar n) = some (n % 10) := by
  have h10 : n % 10 < 10 := Nat.mod_lt _ (by omega)
  have hv : (48 + n % 10).isValidChar := Or.inl (by omega)
  have ht : (digitChar n).toNat = 48 + n % 10 := by
    simp [digitChar, Char.ofNat, hv, Char.ofNatAux, Char.toNat, UInt32.toNat,
      BitVec.toNat_ofNatLt]
  have hc : (48 ≤ (digitChar n).toNat && (digitChar n).toNat ≤ 57) = true := by
    rw [ht]
    simp only [Bool.and_eq_true, decide_eq_true_eq]
    omega
  unfold digitVal
  rw [if_pos hc, ht]
  simp only [Option.some.injEq]
  omega

theorem parse2_pad2 (n : Nat) (h : n < 100) (rest : List Char) :
    parse2 (pad2 n ++ rest) = some (n, rest) := by
  have h1 := digitVal_digitChar (n / 10)
  have h2 := digitVal_digitChar n
  simp only [pad2, List.cons_append, List.nil_append, parse2, h1, h2,
    Option.some.injEq, Prod.mk.injEq]
  exact ⟨by omega, trivial⟩

theorem parse4_pad4 (n : Nat) (h : n < 10000) (rest : List Char) :
    parse4 (pad4 n ++ rest) = some (n, rest) := by
  have h1 := digitVal_digitChar (n / 1000)
  have h2 := digitVal_digitChar (n / 100)
  have h3 := digitVal_digitChar (n / 10)
  have h4 := digitVal_digitChar n
  simp only [pad4, List.cons_append, List.nil_append, parse4, h1, h2, h3, h4,
    Option.some.injEq, Prod.mk.injEq]
  exact ⟨by omega, trivial⟩

theorem expectChar_cons_self (c : Char) (rest : List Char) :
    expectChar c (c :: rest) = some rest := by
  simp [expectChar]

theorem parseTzPart_utc : parseTzPart ['+', '0', '0', ':', '0', '0'] = some (some 0) := by
  decide

/-- The validity ranges of a Python `datetime` (what the indexer's
decoder hands over and the serializer prints with fixed widths). -/
def ValidDateTime (t : DateTime) : Prop :=
  1 ≤ t.year ∧ t.year ≤ 9999 ∧ 1 ≤ t.month ∧ t.month ≤ 12 ∧
    1 ≤ t.day ∧ t.day ≤ 31 ∧ t.hour ≤ 23 ∧ t.minute ≤ 59 ∧ t.second ≤ 59

instance (t : DateTime) : Decidable (ValidDateTime t) := by
  unfold ValidDateTime
  infer_instance

theorem fromisoformat_isoformat (t : DateTime) (h : ValidDateTime t) :
    fromisoformat (String.mk (isoformatChars t)) = some ⟨t, some 0⟩ := by
  obtain ⟨h1, h2, h3, h4, h5, h6, h7, h8, h9⟩ := h
  have hy := parse4_pad4 t.year (by omega)
  have hmo := parse2_pad2 t.month (by omega)
  have hdy := parse2_pad2 t.day (by omega)
  have hho := parse2_pad2 t.hour (by omega)
  have hmi := parse2_pad2 t.minute (by omega)
  have hse := parse2_pad2 t.second (by omega)
  have hc1 : (1 ≤ t.year && 1 ≤ t.month && t.month ≤ 12 && 1 ≤ t.day && t.day ≤ 31) = true := by
    simp only [Bool.and_eq_true, decide_eq_true_eq]
    omega
  have hc2 : (t.hour ≤ 23 && t.minute ≤ 59 && t.second ≤ 59) = true := by
    simp only [Bool.and_eq_true, decide_eq_true_eq]
    omega
  have hd : (String.mk (isoformatChars t)).data = isoformatChars t := rfl
  unfold fromisoformat parseDatePart parseTimePart
  rw [hd]
  simp only [isoformatChars, hy, hmo, hdy, hho, hmi, hse, expectChar_cons_self,
    parseTzPart_utc, hc1, hc2, if_true]
  simp

/-- Claim C6: serializing a recording-index entry collection (as the
indexer produces it: entries whose dates are genuine calendar
datetimes) to the cache document and deserializing it back yields the
original collection — indeed equal as a list, hence with the same
dates, activity types, archive paths and inner file names as a set. -/
theorem c6_cache_roundtrip (fit_file_index : List FitFileEntry)
    (h : ∀ e ∈ fit_file_index, ValidDateTime e.date) :
    deserializeEntries (cache_fit_file_index fit_file_index) = .ok fit_file_index := by
  induction fit_file_index with
  | nil => rfl
  | cons e rest ih =>
    have he := fromisoformat_isoformat e.date (h e (by simp))
    have hrest := ih (fun x hx => h x (by simp [hx]))
    simp only [cache_fit_file_index, List.map_cons] at hrest ⊢
    simp only [deserializeEntries, he, hrest]

/-- Witness for C6: a concrete one-entry index survives the cache
round trip unchanged. -/
theorem c6_witness :
    deserializeEntries (cache_fit_file_index
        [⟨⟨2024, 1, 1, 10, 0, 0⟩, "running", "a.zip", "sub/x.fit"⟩]) =
      .ok [⟨⟨2024, 1, 1, 10, 0, 0⟩, "running", "a.zip", "sub/x.fit"⟩] := by
  exact c6_cache_roundtrip _ (by decide)
